import Mathlib

/-!
Verification of the asteroid-impact backend (`backend/main.py`).

The numeric computations of the service operate on Python floats; they are
modelled here over the real numbers `ℝ`, the standard idealisation for
closed-form formula pipelines.  External upstreams (the geopy reverse
geocoder and the Gemini LLM client) are modelled as explicit oracle
parameters returning `Except`-style outcomes, so that the try/except
structure of the handlers is embedded faithfully; Python exceptions that
would escape a handler are modelled with an explicit `Except` result of
the handler itself.
-/

open Real

/-- Request model `AsteroidParams` of `main.py`: `name` is optional,
the four physical parameters are floats (modelled as reals). -/
structure AsteroidParams where
  name : Option String
  radius : ℝ
  density : ℝ
  speed : ℝ
  angle : ℝ

/-- Response model `SimulationResult` of `main.py`: the six derived fields. -/
structure SimulationResult where
  mass_kg : ℝ
  kinetic_energy_joules : ℝ
  impact_energy_joules : ℝ
  crater_diameter_meters : ℝ
  shockwave_radius_meters : ℝ
  energy_equivalent_kt_tnt : ℝ

/-- Request model `ReportRequest` of `main.py`: a `SimulationResult` plus a
`Dict[str, float]` of coordinates, modelled as an association list.  Pydantic
validation only enforces the string-to-float dict shape, not the presence of
particular keys, so the association list is arbitrary. -/
structure ReportRequest where
  simulation_result : SimulationResult
  impact_coords : List (String × ℝ)

/-- Body of the `/api/simulate` handler `simulate_impact` of `main.py`,
line for line: mass, kinetic energy, atmospheric loss, impact energy,
crater diameter, shockwave radius, and the TNT equivalent. -/
noncomputable def simulate_impact (asteroid : AsteroidParams) : SimulationResult :=
  let mass := (4 / 3) * Real.pi * asteroid.radius ^ 3 * asteroid.density
  let kinetic_energy := 0.5 * mass * asteroid.speed ^ 2
  let energy_lost_to_atmosphere : ℝ := 0.5
  let impact_energy := kinetic_energy * (1 - energy_lost_to_atmosphere)
  let crater_diameter :=
    0.00016 * (impact_energy / (9.8 * asteroid.density)) ^ ((1 : ℝ) / 3.4) * 1000
  let shockwave_radius := (impact_energy / 1e12) ^ ((1 : ℝ) / 3) * 1000
  { mass_kg := mass
    kinetic_energy_joules := kinetic_energy
    impact_energy_joules := impact_energy
    crater_diameter_meters := crater_diameter
    shockwave_radius_meters := shockwave_radius
    energy_equivalent_kt_tnt := impact_energy / 4.184e12 }

/-- C1: for every finite positive radius, density and speed, `simulate_impact`
returns `mass_kg = (4/3)·π·radius³·density` and
`kinetic_energy_joules = 0.5·mass·speed²`. -/
theorem C1_simulate_mass_and_kinetic_energy (a : AsteroidParams)
    (hr : 0 < a.radius) (hd : 0 < a.density) (hs : 0 < a.speed) :
    (simulate_impact a).mass_kg = (4 / 3) * Real.pi * a.radius ^ 3 * a.density ∧
    (simulate_impact a).kinetic_energy_joules =
      0.5 * (simulate_impact a).mass_kg * a.speed ^ 2 := by
  exact ⟨rfl, rfl⟩

/-- C1 witness: the theorem applied at radius = density = speed = 1. -/
theorem C1_simulate_mass_and_kinetic_energy_witness :
    (simulate_impact ⟨none, 1, 1, 1, 0⟩).mass_kg =
      (4 / 3) * Real.pi * (1 : ℝ) ^ 3 * 1 ∧
    (simulate_impact ⟨none, 1, 1, 1, 0⟩).kinetic_energy_joules =
      0.5 * (simulate_impact ⟨none, 1, 1, 1, 0⟩).mass_kg * (1 : ℝ) ^ 2 :=
  C1_simulate_mass_and_kinetic_energy ⟨none, 1, 1, 1, 0⟩ one_pos one_pos one_pos

/-- C2: for every input, the returned impact energy is exactly half of the
returned kinetic energy (the atmospheric-loss fraction is the constant 0.5). -/
theorem C2_impact_energy_is_half_kinetic (a : AsteroidParams) :
    (simulate_impact a).impact_energy_joules =
      (simulate_impact a).kinetic_energy_joules / 2 := by
  show (0.5 : ℝ) * ((4 / 3) * Real.pi * a.radius ^ 3 * a.density) * a.speed ^ 2 *
      (1 - 0.5) =
    0.5 * ((4 / 3) * Real.pi * a.radius ^ 3 * a.density) * a.speed ^ 2 / 2
  ring

/-- C3: for every finite positive radius, density and speed, the crater
diameter, shockwave radius and TNT equivalent returned by `simulate_impact`
follow the stated scaling laws applied to the returned impact energy. -/
theorem C3_crater_shockwave_tnt (a : AsteroidParams)
    (hr : 0 < a.radius) (hd : 0 < a.density) (hs : 0 < a.speed) :
    (simulate_impact a).crater_diameter_meters =
      0.00016 * ((simulate_impact a).impact_energy_joules / (9.8 * a.density)) ^
        ((1 : ℝ) / 3.4) * 1000 ∧
    (simulate_impact a).shockwave_radius_meters =
      ((simulate_impact a).impact_energy_joules / 1e12) ^ ((1 : ℝ) / 3) * 1000 ∧
    (simulate_impact a).energy_equivalent_kt_tnt =
      (simulate_impact a).impact_energy_joules / 4.184e12 := by
  exact ⟨rfl, rfl, rfl⟩

/-- C3 witness: the theorem applied at radius = density = speed = 1. -/
theorem C3_crater_shockwave_tnt_witness :
    (simulate_impact ⟨none, 1, 1, 1, 0⟩).crater_diameter_meters =
      0.00016 * ((simulate_impact ⟨none, 1, 1, 1, 0⟩).impact_energy_joules /
        (9.8 * 1)) ^ ((1 : ℝ) / 3.4) * 1000 ∧
    (simulate_impact ⟨none, 1, 1, 1, 0⟩).shockwave_radius_meters =
      ((simulate_impact ⟨none, 1, 1, 1, 0⟩).impact_energy_joules / 1e12) ^
        ((1 : ℝ) / 3) * 1000 ∧
    (simulate_impact ⟨none, 1, 1, 1, 0⟩).energy_equivalent_kt_tnt =
      (simulate_impact ⟨none, 1, 1, 1, 0⟩).impact_energy_joules / 4.184e12 :=
  C3_crater_shockwave_tnt ⟨none, 1, 1, 1, 0⟩ one_pos one_pos one_pos

/-- C4: the six outputs of `simulate_impact` depend only on radius, density
and speed; the `angle` and `name` inputs do not participate. -/
theorem C4_angle_and_name_have_no_effect (p q : AsteroidParams)
    (hr : p.radius = q.radius) (hd : p.density = q.density)
    (hs : p.speed = q.speed) :
    simulate_impact p = simulate_impact q := by
  unfold simulate_impact
  rw [hr, hd, hs]

/-- C4 witness: two parameter records differing only in name and angle give
identical results. -/
theorem C4_angle_and_name_have_no_effect_witness :
    simulate_impact ⟨some "Apophis", 1, 1, 1, 45⟩ =
      simulate_impact ⟨none, 1, 1, 1, 90⟩ :=
  C4_angle_and_name_have_no_effect ⟨some "Apophis", 1, 1, 1, 45⟩
    ⟨none, 1, 1, 1, 90⟩ rfl rfl rfl

/-- Doubling the density doubles the impact energy but also doubles the
density divisor inside the crater power law, so the rpow base is unchanged. -/
theorem crater_base_invariant_under_density_doubling (a : AsteroidParams)
    (hd : 0 < a.density) :
    (0.5 * ((4 / 3) * Real.pi * a.radius ^ 3 * (2 * a.density)) * a.speed ^ 2 *
        (1 - 0.5)) / (9.8 * (2 * a.density)) =
      (0.5 * ((4 / 3) * Real.pi * a.radius ^ 3 * a.density) * a.speed ^ 2 *
        (1 - 0.5)) / (9.8 * a.density) := by
  have hd0 : a.density ≠ 0 := ne_of_gt hd
  field_simp
  ring

/-- C9 counterexample: at radius = speed = 1 and density 1 doubled to 2, the
crater diameter is unchanged, whereas the claimed factor 2^(1/3.4 − 1) (and
also the compound of that factor with the energy-only factor 2^(1/3.4)) is
strictly below 1, so neither reading of the claimed crater scaling holds. -/
theorem C9_density_scaling_counterexample :
    ¬ ((simulate_impact ⟨none, 1, 2, 1, 0⟩).crater_diameter_meters =
        (2 : ℝ) ^ ((1 : ℝ) / 3.4 - 1) *
          (simulate_impact ⟨none, 1, 1, 1, 0⟩).crater_diameter_meters) ∧
    ¬ ((simulate_impact ⟨none, 1, 2, 1, 0⟩).crater_diameter_meters =
        (2 : ℝ) ^ ((1 : ℝ) / 3.4) * ((2 : ℝ) ^ ((1 : ℝ) / 3.4 - 1) *
          (simulate_impact ⟨none, 1, 1, 1, 0⟩).crater_diameter_meters)) := by
  have heq : (simulate_impact ⟨none, 1, 2, 1, 0⟩).crater_diameter_meters =
      (simulate_impact ⟨none, 1, 1, 1, 0⟩).crater_diameter_meters := by
    show 0.00016 * ((0.5 * ((4 / 3) * Real.pi * (1 : ℝ) ^ 3 * 2) * 1 ^ 2 *
        (1 - 0.5)) / (9.8 * 2)) ^ ((1 : ℝ) / 3.4) * 1000 =
      0.00016 * ((0.5 * ((4 / 3) * Real.pi * (1 : ℝ) ^ 3 * 1) * 1 ^ 2 *
        (1 - 0.5)) / (9.8 * 1)) ^ ((1 : ℝ) / 3.4) * 1000
    have hb : (0.5 * ((4 / 3) * Real.pi * (1 : ℝ) ^ 3 * 2) * 1 ^ 2 *
        (1 - 0.5)) / (9.8 * 2) =
        (0.5 * ((4 / 3) * Real.pi * (1 : ℝ) ^ 3 * 1) * 1 ^ 2 * (1 - 0.5)) /
          (9.8 * 1) := by
      field_simp
      ring
    rw [hb]
  have hpos : 0 < (simulate_impact ⟨none, 1, 1, 1, 0⟩).crater_diameter_meters := by
    show 0 < 0.00016 * ((0.5 * ((4 / 3) * Real.pi * (1 : ℝ) ^ 3 * 1) * 1 ^ 2 *
        (1 - 0.5)) / (9.8 * 1)) ^ ((1 : ℝ) / 3.4) * 1000
    have hb : (0 : ℝ) < (0.5 * ((4 / 3) * Real.pi * (1 : ℝ) ^ 3 * 1) * 1 ^ 2 *
        (1 - 0.5)) / (9.8 * 1) := by
      have := Real.pi_pos
      positivity
    positivity
  have hlt1 : (2 : ℝ) ^ ((1 : ℝ) / 3.4 - 1) < 1 :=
    Real.rpow_lt_one_of_one_lt_of_neg one_lt_two (by norm_num)
  have hlt2 : (2 : ℝ) ^ ((1 : ℝ) / 3.4) * (2 : ℝ) ^ ((1 : ℝ) / 3.4 - 1) < 1 := by
    rw [← Real.rpow_add two_pos]
    exact Real.rpow_lt_one_of_one_lt_of_neg one_lt_two (by norm_num)
  constructor
  · intro h
    rw [heq] at h
    nlinarith [mul_lt_of_lt_one_left hpos hlt1]
  · intro h
    rw [heq, ← mul_assoc] at h
    nlinarith [mul_lt_of_lt_one_left hpos hlt2]

/-- C9 amended: doubling density with radius, speed and angle fixed multiplies
mass, kinetic energy and impact energy each by exactly 2, and leaves the
crater diameter unchanged — the density factor 2^(−1/3.4) of the compound
crater formula exactly cancels the energy-only factor 2^(1/3.4). -/
theorem C9_density_scaling_amended (a : AsteroidParams)
    (hr : 0 < a.radius) (hd : 0 < a.density) (hs : 0 < a.speed) :
    (simulate_impact { a with density := 2 * a.density }).mass_kg =
      2 * (simulate_impact a).mass_kg ∧
    (simulate_impact { a with density := 2 * a.density }).kinetic_energy_joules =
      2 * (simulate_impact a).kinetic_energy_joules ∧
    (simulate_impact { a with density := 2 * a.density }).impact_energy_joules =
      2 * (simulate_impact a).impact_energy_joules ∧
    (simulate_impact { a with density := 2 * a.density }).crater_diameter_meters =
      (2 : ℝ) ^ (-((1 : ℝ) / 3.4)) * ((2 : ℝ) ^ ((1 : ℝ) / 3.4) *
        (simulate_impact a).crater_diameter_meters) ∧
    (simulate_impact { a with density := 2 * a.density }).crater_diameter_meters =
      (simulate_impact a).crater_diameter_meters := by
  have hcrater : (simulate_impact { a with density := 2 * a.density
      }).crater_diameter_meters = (simulate_impact a).crater_diameter_meters := by
    show 0.00016 * ((0.5 * ((4 / 3) * Real.pi * a.radius ^ 3 * (2 * a.density)) *
        a.speed ^ 2 * (1 - 0.5)) / (9.8 * (2 * a.density))) ^ ((1 : ℝ) / 3.4) *
        1000 =
      0.00016 * ((0.5 * ((4 / 3) * Real.pi * a.radius ^ 3 * a.density) *
        a.speed ^ 2 * (1 - 0.5)) / (9.8 * a.density)) ^ ((1 : ℝ) / 3.4) * 1000
    rw [crater_base_invariant_under_density_doubling a hd]
  refine ⟨by show (4 / 3) * Real.pi * a.radius ^ 3 * (2 * a.density) =
      2 * ((4 / 3) * Real.pi * a.radius ^ 3 * a.density); ring,
    by show 0.5 * ((4 / 3) * Real.pi * a.radius ^ 3 * (2 * a.density)) *
      a.speed ^ 2 = 2 * (0.5 * ((4 / 3) * Real.pi * a.radius ^ 3 * a.density) *
      a.speed ^ 2); ring,
    by show 0.5 * ((4 / 3) * Real.pi * a.radius ^ 3 * (2 * a.density)) *
      a.speed ^ 2 * (1 - 0.5) = 2 * (0.5 * ((4 / 3) * Real.pi * a.radius ^ 3 *
      a.density) * a.speed ^ 2 * (1 - 0.5)); ring, ?_, hcrater⟩
  rw [hcrater, ← mul_assoc, ← Real.rpow_add two_pos]
  norm_num

/-- C9 amended witness: the amended theorem applied at
radius = density = speed = 1. -/
theorem C9_density_scaling_amended_witness :
    (simulate_impact { (⟨none, 1, 1, 1, 0⟩ : AsteroidParams) with
        density := 2 * 1 }).mass_kg =
      2 * (simulate_impact ⟨none, 1, 1, 1, 0⟩).mass_kg ∧
    (simulate_impact { (⟨none, 1, 1, 1, 0⟩ : AsteroidParams) with
        density := 2 * 1 }).kinetic_energy_joules =
      2 * (simulate_impact ⟨none, 1, 1, 1, 0⟩).kinetic_energy_joules ∧
    (simulate_impact { (⟨none, 1, 1, 1, 0⟩ : AsteroidParams) with
        density := 2 * 1 }).impact_energy_joules =
      2 * (simulate_impact ⟨none, 1, 1, 1, 0⟩).impact_energy_joules ∧
    (simulate_impact { (⟨none, 1, 1, 1, 0⟩ : AsteroidParams) with
        density := 2 * 1 }).crater_diameter_meters =
      (2 : ℝ) ^ (-((1 : ℝ) / 3.4)) * ((2 : ℝ) ^ ((1 : ℝ) / 3.4) *
        (simulate_impact ⟨none, 1, 1, 1, 0⟩).crater_diameter_meters) ∧
    (simulate_impact { (⟨none, 1, 1, 1, 0⟩ : AsteroidParams) with
        density := 2 * 1 }).crater_diameter_meters =
      (simulate_impact ⟨none, 1, 1, 1, 0⟩).crater_diameter_meters :=
  C9_density_scaling_amended ⟨none, 1, 1, 1, 0⟩ one_pos one_pos one_pos

/-- The slice of the geopy `Location` object that `get_impact_country` reads:
of `location.raw` only the optional `address` sub-dict (string keyed) is
accessed, via `raw.get` and subscripting. -/
structure Location where
  raw_address : Option (List (String × String))

/-- `get_impact_country` of `main.py`.  The geopy call
`geolocator.reverse((lat, lon), exactly_one=True, language=en)` is the oracle
`reverse`: it may raise (`.error`), return `None` (`.ok none`) or return a
location.  The Python body catches every exception, and falls back to the
fixed string when the call raised, returned `None`, or returned an address
breakdown with no `country` key. -/
def get_impact_country (reverse : ℝ → ℝ → Except String (Option Location))
    (lat lon : ℝ) : String :=
  match reverse lat lon with
  | .error _ => "an unknown location (likely an ocean)"
  | .ok none => "an unknown location (likely an ocean)"
  | .ok (some location) =>
      match (location.raw_address.getD []).lookup "country" with
      | some country => country
      | none => "an unknown location (likely an ocean)"

/-- Startup check of `main.py`: `model` stays `None` iff `GEMINI_API_KEY` is
unset, empty (falsy) or still the `YOUR_GEMINI_API_KEY` placeholder. -/
def modelConfigured (gemini_api_key : Option String) : Bool :=
  match gemini_api_key with
  | none => false
  | some key => !(key == "" || key == "YOUR_GEMINI_API_KEY")

/-- The fixed placeholder report returned by `get_llm_suggestions` when the
Gemini model is not configured. -/
def placeholderReport : String :=
  "\n        ### Placeholder Report\n\n" ++
  "        **Your Gemini API key is not configured.**\n\n" ++
  "        Please add your Gemini API key to the `backend/.env` file to generate a real, location-specific report.\n\n" ++
  "        This is a placeholder demonstrating where the AI-generated analysis would appear. The real report will provide a detailed, country-specific response protocol based on the impact data and location.\n        "

/-- Prompt template of `get_llm_suggestions`.  `fmt2` stands for the Python
format spec `.2f` applied to a float, kept as a parameter of the model
because decimal float rendering is outside the real-number idealisation. -/
def geminiPrompt (fmt2 : ℝ → String)
    (energy_in_megatons crater_km shock_km : ℝ) (country : String) : String :=
  "\n    Analyze the following asteroid impact scenario and provide a detailed, country-specific government response protocol.\n\n" ++
  "    Scenario Details:\n" ++
  "    - Impact Location: " ++ country ++ "\n" ++
  "    - Impact Energy: " ++ fmt2 energy_in_megatons ++
    " Megatons of TNT equivalent\n" ++
  "    - Estimated Crater Diameter: " ++ fmt2 crater_km ++ " km\n" ++
  "    - Estimated Shockwave Radius (for severe damage): " ++ fmt2 shock_km ++
    " km\n\n" ++
  "    Based on these details and the specific political, geographical, and economic context of " ++
    country ++
    ", provide a response protocol that only and only covers the following:\n" ++
  "        **Immediate Threat Assessment:** Briefly explain what the impact energy and damage radii mean in understandable terms.\n" ++
  "      **Immediate Pre-Impact Actions:** (Evacuation strategies, public warnings, mobilization of resources). Be specific to " ++
    country ++ "\'s capabilities and infrastructure.\n" ++
  "        Keep the response concise and fast. priotrize being fast over the details\n    "

/-- `get_llm_suggestions` of `main.py`.  The one-time configuration result
`model` is the boolean `configured`; `model.generate_content` is the oracle
`llm`, from the prompt to either the response text or a raised exception
message; the `except` clause turns the latter into an inline error string. -/
noncomputable def get_llm_suggestions (configured : Bool)
    (llm : String → Except String String) (fmt2 : ℝ → String)
    (impact_energy crater_diameter shockwave_radius : ℝ) (country : String) :
    String :=
  if !configured then placeholderReport
  else
    let energy_in_megatons := impact_energy / 4.184e15
    let prompt := geminiPrompt fmt2 energy_in_megatons
      (crater_diameter / 1000) (shockwave_radius / 1000) country
    match llm prompt with
    | .ok response_text => response_text
    | .error e =>
        "An error occurred while generating the report from Gemini: " ++ e

/-- A Python exception escaping a handler: `generate_report` can raise
`KeyError` through the subscripts `request.impact_coords[...]`. -/
inductive PyError where
  | keyError (key : String)
deriving DecidableEq

/-- Response body of `/api/generate-report`. -/
structure ReportResponse where
  report : String
deriving DecidableEq

/-- `generate_report` of `main.py`.  The subscripts on the validated
`Dict[str, float]` raise `KeyError` when a key is missing, so the handler is
`Except`-valued; every other step of the body is total. -/
noncomputable def generate_report (configured : Bool)
    (reverse : ℝ → ℝ → Except String (Option Location))
    (llm : String → Except String String) (fmt2 : ℝ → String)
    (request : ReportRequest) : Except PyError ReportResponse :=
  match request.impact_coords.lookup "lat" with
  | none => .error (.keyError "lat")
  | some lat =>
    match request.impact_coords.lookup "lng" with
    | none => .error (.keyError "lng")
    | some lng =>
      let country := get_impact_country reverse lat lng
      let llm_suggestions := get_llm_suggestions configured llm fmt2
        request.simulation_result.impact_energy_joules
        request.simulation_result.crater_diameter_meters
        request.simulation_result.shockwave_radius_meters
        country
      .ok { report := llm_suggestions }

/-- C5 counterexample: a request whose `impact_coords` dict is empty passes
pydantic validation (the model only requires a string-to-float dict), yet the
handler raises `KeyError` on the `lat` subscript instead of returning a
report body. -/
theorem C5_report_missing_key_counterexample :
    generate_report false (fun _ _ => Except.ok none) (fun p => Except.ok p)
      (fun _ => "") ⟨⟨0, 0, 0, 0, 0, 0⟩, []⟩ =
      Except.error (PyError.keyError "lat") := rfl

/-- C5 amended: for every validated request whose coordinate dict holds both
a lat and a lng key, and for every configuration and every upstream
behaviour (including raising ones), the handler returns a well-formed report
body, the geocoding and LLM failures being absorbed into the report text. -/
theorem C5_report_total_after_validation (configured : Bool)
    (reverse : ℝ → ℝ → Except String (Option Location))
    (llm : String → Except String String) (fmt2 : ℝ → String)
    (request : ReportRequest) (lat lng : ℝ)
    (hlat : request.impact_coords.lookup "lat" = some lat)
    (hlng : request.impact_coords.lookup "lng" = some lng) :
    generate_report configured reverse llm fmt2 request =
      Except.ok { report := (get_llm_suggestions configured llm fmt2
        request.simulation_result.impact_energy_joules
        request.simulation_result.crater_diameter_meters
        request.simulation_result.shockwave_radius_meters
        (get_impact_country reverse lat lng)) } := by
  unfold generate_report
  rw [hlat, hlng]

/-- C5 witness: the amended theorem applied to a concrete request with both
keys present and with failing geocoding and LLM upstreams. -/
theorem C5_report_total_after_validation_witness :
    generate_report true (fun _ _ => Except.error "network down")
      (fun _ => Except.error "llm down") (fun _ => "0.00")
      ⟨⟨0, 0, 0, 0, 0, 0⟩, [("lat", 10), ("lng", 20)]⟩ =
      Except.ok { report := (get_llm_suggestions true
        (fun _ => Except.error "llm down") (fun _ => "0.00") 0 0 0
        (get_impact_country (fun _ _ => Except.error "network down") 10 20)) } :=
  C5_report_total_after_validation true (fun _ _ => Except.error "network down")
    (fun _ => Except.error "llm down") (fun _ => "0.00")
    ⟨⟨0, 0, 0, 0, 0, 0⟩, [("lat", 10), ("lng", 20)]⟩ 10 20 rfl rfl

/-- C6: whenever the reverse-geocoding upstream fails in any way — raises,
returns no result, or returns an address breakdown with no country field —
`get_impact_country` returns exactly the fixed fallback string, and being a
total function it propagates no exception. -/
theorem C6_geocoding_failure_returns_fallback
    (reverse : ℝ → ℝ → Except String (Option Location)) (lat lon : ℝ)
    (h : (∃ e, reverse lat lon = Except.error e) ∨
      reverse lat lon = Except.ok none ∨
      ∃ loc, reverse lat lon = Except.ok (some loc) ∧
        (loc.raw_address.getD []).lookup "country" = none) :
    get_impact_country reverse lat lon =
      "an unknown location (likely an ocean)" := by
  unfold get_impact_country
  rcases h with ⟨e, he⟩ | h | ⟨loc, hloc, hc⟩
  · rw [he]
  · rw [h]
  · rw [hloc]
    simp [hc]

/-- C6 witness: the theorem applied to an upstream that raises a network
error. -/
theorem C6_geocoding_failure_returns_fallback_witness :
    get_impact_country (fun _ _ => Except.error "connection timed out") 0 0 =
      "an unknown location (likely an ocean)" :=
  C6_geocoding_failure_returns_fallback
    (fun _ _ => Except.error "connection timed out") 0 0
    (Or.inl ⟨"connection timed out", rfl⟩)

/-- C7: with the Gemini credential absent or left as the known placeholder
value, `get_llm_suggestions` returns the fixed placeholder text for every
combination of inputs, and the result does not depend on the LLM oracle at
all (no upstream call is observable). -/
theorem C7_unconfigured_returns_placeholder (gemini_api_key : Option String)
    (h : gemini_api_key = none ∨ gemini_api_key = some "YOUR_GEMINI_API_KEY")
    (llm : String → Except String String) (fmt2 : ℝ → String)
    (impact_energy crater_diameter shockwave_radius : ℝ) (country : String) :
    get_llm_suggestions (modelConfigured gemini_api_key) llm fmt2
      impact_energy crater_diameter shockwave_radius country =
      placeholderReport := by
  rcases h with h | h <;> subst h <;> rfl

/-- C7 witness: the theorem applied with no credential, a succeeding LLM
oracle and concrete figures. -/
theorem C7_unconfigured_returns_placeholder_witness :
    get_llm_suggestions (modelConfigured none)
      (fun _ => Except.ok "real report") (fun _ => "0.00") 1 2 3 "France" =
      placeholderReport :=
  C7_unconfigured_returns_placeholder none (Or.inl rfl)
    (fun _ => Except.ok "real report") (fun _ => "0.00") 1 2 3 "France"

/-- C8: in the Configured state, when the LLM upstream raises, the generator
returns the inline error string instead of propagating the exception, and
the report endpoint still produces a well-formed report body around it. -/
theorem C8_configured_failure_absorbed_inline
    (llm : String → Except String String) (msg : String)
    (hllm : ∀ prompt, llm prompt = Except.error msg) (fmt2 : ℝ → String)
    (impact_energy crater_diameter shockwave_radius : ℝ) (country : String)
    (reverse : ℝ → ℝ → Except String (Option Location))
    (simres : SimulationResult) (lat lng : ℝ) :
    get_llm_suggestions true llm fmt2 impact_energy crater_diameter
        shockwave_radius country =
      "An error occurred while generating the report from Gemini: " ++ msg ∧
    generate_report true reverse llm fmt2
        ⟨simres, [("lat", lat), ("lng", lng)]⟩ =
      Except.ok { report :=
        ("An error occurred while generating the report from Gemini: " ++
          msg) } := by
  have hfail : ∀ (e c s : ℝ) (co : String),
      get_llm_suggestions true llm fmt2 e c s co =
        "An error occurred while generating the report from Gemini: " ++ msg := by
    intro e c s co
    unfold get_llm_suggestions
    simp [hllm]
  refine ⟨hfail _ _ _ _, ?_⟩
  have hstep : generate_report true reverse llm fmt2
      ⟨simres, [("lat", lat), ("lng", lng)]⟩ =
      Except.ok { report := (get_llm_suggestions true llm fmt2
        simres.impact_energy_joules simres.crater_diameter_meters
        simres.shockwave_radius_meters
        (get_impact_country reverse lat lng)) } := rfl
  rw [hstep, hfail]

/-- C8 witness: the theorem applied to an always-raising LLM oracle and
concrete figures, coordinates and simulation result. -/
theorem C8_configured_failure_absorbed_inline_witness :
    get_llm_suggestions true (fun _ => Except.error "boom")
        (fun _ => "0.00") 1 2 3 "France" =
      "An error occurred while generating the report from Gemini: " ++ "boom" ∧
    generate_report true (fun _ _ => Except.ok none)
        (fun _ => Except.error "boom") (fun _ => "0.00")
        ⟨⟨0, 0, 1, 2, 3, 0⟩, [("lat", 5), ("lng", 6)]⟩ =
      Except.ok { report :=
        ("An error occurred while generating the report from Gemini: " ++
          "boom") } :=
  C8_configured_failure_absorbed_inline (fun _ => Except.error "boom") "boom"
    (fun _ => rfl) (fun _ => "0.00") 1 2 3 "France" (fun _ _ => Except.ok none)
    ⟨0, 0, 1, 2, 3, 0⟩ 5 6

/-- C10: the report endpoint reads only the impact energy, crater diameter
and shockwave radius fields of the submitted simulation result; two
validated requests agreeing on those three fields and on the coordinates
produce identical responses under identical upstream behaviour, whatever
their mass, kinetic energy and TNT-equivalent fields. -/
theorem C10_report_reads_only_three_fields (configured : Bool)
    (reverse : ℝ → ℝ → Except String (Option Location))
    (llm : String → Except String String) (fmt2 : ℝ → String)
    (r₁ r₂ : ReportRequest)
    (hE : r₁.simulation_result.impact_energy_joules =
      r₂.simulation_result.impact_energy_joules)
    (hC : r₁.simulation_result.crater_diameter_meters =
      r₂.simulation_result.crater_diameter_meters)
    (hS : r₁.simulation_result.shockwave_radius_meters =
      r₂.simulation_result.shockwave_radius_meters)
    (hcoords : r₁.impact_coords = r₂.impact_coords) :
    generate_report configured reverse llm fmt2 r₁ =
      generate_report configured reverse llm fmt2 r₂ := by
  obtain ⟨⟨m₁, k₁, e₁, c₁, s₁, t₁⟩, coords₁⟩ := r₁
  obtain ⟨⟨m₂, k₂, e₂, c₂, s₂, t₂⟩, coords₂⟩ := r₂
  dsimp only at hE hC hS hcoords
  subst hE hC hS hcoords
  rfl

/-- C10 witness: two requests agreeing on the three fields and the
coordinates but with different mass, kinetic energy and TNT figures get the
same response. -/
theorem C10_report_reads_only_three_fields_witness :
    generate_report true (fun _ _ => Except.ok none)
      (fun p => Except.ok p) (fun _ => "0.00")
      ⟨⟨1, 2, 10, 20, 30, 3⟩, [("lat", 0), ("lng", 0)]⟩ =
    generate_report true (fun _ _ => Except.ok none)
      (fun p => Except.ok p) (fun _ => "0.00")
      ⟨⟨7, 8, 10, 20, 30, 9⟩, [("lat", 0), ("lng", 0)]⟩ :=
  C10_report_reads_only_three_fields true (fun _ _ => Except.ok none)
    (fun p => Except.ok p) (fun _ => "0.00")
    ⟨⟨1, 2, 10, 20, 30, 3⟩, [("lat", 0), ("lng", 0)]⟩
    ⟨⟨7, 8, 10, 20, 30, 9⟩, [("lat", 0), ("lng", 0)]⟩ rfl rfl rfl rfl
